import Mathlib

/-!
Verification of the multi-source media resolution and fallback-download
coordinator of the `downloader` repository.

The development shallowly embeds the relevant TypeScript code:

* `MediaDetectionService` (detection pipeline, URL-based YouTube ID
  extraction, deduplication) from `src/services/MediaDetectionService.ts`;
* `DownloadService` (dispatch, direct/blob/embedded download paths, the
  three-strategy YouTube service chain, bulk runner) from
  `src/services/DownloadService.ts`;
* the Express backend handler for `POST /api/download-youtube`
  (quality table, validation order, temp-directory lifecycle).

Browser and OS primitives (`fetch`, `saveAs`, `new URL`, DOM queries,
subprocess and stream events) are modelled as explicit environments or
enumerated outcomes; everything computed by the source itself (string
matching, the regex pattern lists, filename construction, dedup, the
fallback loops, argument building) is translated directly.
-/

namespace Downloader

/-! ### JavaScript string primitives -/

/-- `sub.isPrefixOf`-based substring search over character lists. -/
def listIncludes (sub : List Char) : List Char → Bool
  | [] => sub.isEmpty
  | c :: rest => sub.isPrefixOf (c :: rest) || listIncludes sub rest

/-- Model of JavaScript `s.includes(sub)`. -/
def jsIncludes (s sub : String) : Bool :=
  listIncludes sub.data s.data

/-- `s.split(sep)[0]` over character lists (for the non-empty separators
the source uses): the prefix of `s` before the first occurrence of
`sep`, or all of `s` when `sep` never occurs. -/
def jsSplitHeadAux (sep : List Char) : List Char → List Char
  | [] => []
  | c :: rest =>
    if sep.isPrefixOf (c :: rest) then []
    else c :: jsSplitHeadAux sep rest

/-- Model of JavaScript `s.split(sep)[0]`. -/
def jsSplitHead (s sep : String) : String :=
  String.mk (jsSplitHeadAux sep.data s.data)

deriving instance DecidableEq for Except

/-- `url.split('#')[0].split('?si=')[0]`, shared by both extractors. -/
def cleanYtUrl (url : String) : String :=
  jsSplitHead (jsSplitHead url "#") "?si="

/-! ### Regex model for the YouTube ID patterns

The patterns in the source are of three simple shapes: a literal followed
by one capturing negated character class (`/youtu\.be\/([^/]+)/`), a
literal followed by `.*`, a second literal and a capture
(`/youtube\.com\/watch\?.*v=([^/&]+)/`), and a literal, a non-capturing
class run, a second literal and a capture
(`/youtube\.com\/c\/[^/]+\/videos\/([^/]+)/`).  JavaScript `String.match`
is an unanchored leftmost search; greedy subpatterns backtrack from the
right. -/

/-- Characters a JavaScript regex dot does not match. -/
def jsLineTerminators : List Char := ['\n', '\r', '\u2028', '\u2029']

/-- One regex atom of the broad fallback pattern: a literal character,
the (line-terminator-excluding) dot, or the `\w` class. -/
inductive Atom
  | lit (c : Char)
  | anyc
  | wordc

def matchAtom : Atom → Char → Bool
  | .lit c, d => c == d
  | .anyc, d => !jsLineTerminators.contains d
  | .wordc, d => d.isAlphanum || d == '_'

/-- Match a sequence of atoms at the head of `s`, returning the remainder. -/
def matchAtoms : List Atom → List Char → Option (List Char)
  | [], s => some s
  | _ :: _, [] => none
  | a :: as, c :: s => if matchAtom a c then matchAtoms as s else none

def notIn (excl : List Char) (c : Char) : Bool := !excl.contains c

/-- Try `/lit([^excl]+)/` at the start of `s`. -/
def tryLitCapAt (lit excl s : List Char) : Option (List Char) :=
  if lit.isPrefixOf s then
    let cap := (s.drop lit.length).takeWhile (notIn excl)
    if cap.isEmpty then none else some cap
  else none

/-- Try `/lit.*mid([^excl]+)/` at the start of `s`: the greedy `.*` makes
the engine pick the rightmost occurrence of `mid` (with a non-empty
capture) reachable without crossing a line terminator. -/
def tryDotStarCapAt (lit mid excl s : List Char) : Option (List Char) :=
  if lit.isPrefixOf s then
    let rest := s.drop lit.length
    ((List.range (rest.length + 1)).reverse).findSome? (fun q =>
      if (rest.take q).any (fun c => jsLineTerminators.contains c) then none
      else if mid.isPrefixOf (rest.drop q) then
        let cap := ((rest.drop q).drop mid.length).takeWhile (notIn excl)
        if cap.isEmpty then none else some cap
      else none)
  else none

/-- Try `/lit1[^excl1]+lit2([^excl2]+)/` at the start of `s`.  In the one
pattern of this shape `excl1` is `['/']` and `lit2` starts with `'/'`, so
the run matched by `[^excl1]+` is forced to be maximal and the match is
deterministic. -/
def tryMidCapAt (lit1 excl1 lit2 excl2 s : List Char) : Option (List Char) :=
  if lit1.isPrefixOf s then
    let rest := s.drop lit1.length
    let run := rest.takeWhile (notIn excl1)
    if run.isEmpty then none
    else
      let rest2 := rest.drop run.length
      if lit2.isPrefixOf rest2 then
        let cap := (rest2.drop lit2.length).takeWhile (notIn excl2)
        if cap.isEmpty then none else some cap
      else none
  else none

/-- Unanchored leftmost search: try a position matcher at every suffix,
left to right. -/
def scanPos (f : List Char → Option (List Char)) : List Char → Option (List Char)
  | [] => f []
  | c :: rest =>
    match f (c :: rest) with
    | some r => some r
    | none => scanPos f rest

/-- The three pattern shapes appearing in the ordered pattern lists. -/
inductive YtPat
  | litCap (lit : String) (excl : List Char)
  | dotStarCap (lit mid : String) (excl : List Char)
  | midCap (lit1 : String) (excl1 : List Char) (lit2 : String) (excl2 : List Char)

def runYtPat : YtPat → List Char → Option (List Char)
  | .litCap lit excl, s => scanPos (tryLitCapAt lit.data excl) s
  | .dotStarCap lit mid excl, s => scanPos (tryDotStarCapAt lit.data mid.data excl) s
  | .midCap l1 e1 l2 e2, s => scanPos (tryMidCapAt l1.data e1 l2.data e2) s

/-- `match[1].length === 11 || match[1].length === 10`. -/
def acceptLen (cap : List Char) : Bool := cap.length == 11 || cap.length == 10

/-- The `for (const pattern of patterns)` loop: return the first capture
of accepted length, otherwise keep trying. -/
def runYtPats : List YtPat → List Char → Option (List Char)
  | [], _ => none
  | p :: ps, s =>
    match runYtPat p s with
    | some cap => if acceptLen cap then some cap else runYtPats ps s
    | none => runYtPats ps s

/-- The four patterns of `MediaDetectionService.extractYouTubeId`. -/
def mdPatterns : List YtPat := [
  .litCap "youtu.be/" ['/'],
  .litCap "youtube.com/watch?v=" ['/', '&'],
  .litCap "youtube.com/embed/" ['/'],
  .litCap "youtube.com/v/" ['/']]

/-- `MediaDetectionService.extractYouTubeId`: the four-pattern extractor
used by the detector; `null` on failure. -/
def mdExtractYouTubeId (url : String) : Option String :=
  (runYtPats mdPatterns (cleanYtUrl url).data).map String.mk

/-- The patterns `DownloadService.extractYouTubeId` lists after the four
shared with the detector (including the duplicated embed pattern). -/
def dsPatternsExtra : List YtPat := [
  .litCap "youtube.com/shorts/" ['/'],
  .dotStarCap "youtube.com/watch?" "v=" ['/', '&'],
  .litCap "m.youtube.com/watch?v=" ['/', '&'],
  .litCap "youtube.com/embed/" ['/'],
  .litCap "youtube-nocookie.com/embed/" ['/'],
  .litCap "youtube.com/live/" ['/'],
  .midCap "youtube.com/c/" ['/'] "/videos/" ['/']]

/-- The eleven patterns of `DownloadService.extractYouTubeId`. -/
def dsPatterns : List YtPat := mdPatterns ++ dsPatternsExtra

/-- A purely literal alternative of the fallback regex. -/
def fbAlt (s : String) : List Atom := s.data.map Atom.lit

/-- The alternatives of the broad fallback regex, in source order
(duplicates kept): `(youtu.be\/|v\/|u\/\w\/|embed\/|watch\?v=|&v=|\/videos\/|\/embed\/|\/v\/|\/e\/|watch\?v=|\?v=|&v=|embed\?v=|\/v\/|\/e\/|watch\?v=|\?v=|&v=)`.
The dot in `youtu.be` is unescaped in the source, hence `anyc`. -/
def fallbackAlts : List (List Atom) := [
  [.lit 'y', .lit 'o', .lit 'u', .lit 't', .lit 'u', .anyc, .lit 'b', .lit 'e', .lit '/'],
  fbAlt "v/",
  [.lit 'u', .lit '/', .wordc, .lit '/'],
  fbAlt "embed/",
  fbAlt "watch?v=",
  fbAlt "&v=",
  fbAlt "/videos/",
  fbAlt "/embed/",
  fbAlt "/v/",
  fbAlt "/e/",
  fbAlt "watch?v=",
  fbAlt "?v=",
  fbAlt "&v=",
  fbAlt "embed?v=",
  fbAlt "/v/",
  fbAlt "/e/",
  fbAlt "watch?v=",
  fbAlt "?v=",
  fbAlt "&v="]

def fallbackCapExcl : List Char := ['#', '&', '?']

/-- At a fixed position, try the alternatives in order; the capture
`([^#&?]*)` may be empty. -/
def fallbackAt (s : List Char) : Option (List Char) :=
  fallbackAlts.findSome? (fun alt =>
    (matchAtoms alt s).map (fun rest => rest.takeWhile (notIn fallbackCapExcl)))

/-- `/^.*(…)([^#&?]*).*/`: the greedy leading `.*` selects the rightmost
position at which some alternative matches (line terminators block `.*`). -/
def fallbackMatch (s : List Char) : Option (List Char) :=
  ((List.range (s.length + 1)).reverse).findSome? (fun q =>
    if (s.take q).any (fun c => jsLineTerminators.contains c) then none
    else fallbackAt (s.drop q))

def noIdMsg (url : String) : String :=
  "Could not extract YouTube ID from URL: " ++ url

/-- `DownloadService.extractYouTubeId`: eleven ordered patterns, then the
broad fallback regex (its capture must be truthy and of length 11 or 10),
then a thrown error. -/
def dsExtractYouTubeId (url : String) : Except String String :=
  let cu := (cleanYtUrl url).data
  match runYtPats dsPatterns cu with
  | some cap => .ok (String.mk cap)
  | none =>
    match fallbackMatch cu with
    | some cap =>
      if !cap.isEmpty && acceptLen cap then .ok (String.mk cap)
      else .error (noIdMsg url)
    | none => .error (noIdMsg url)

/-! ### Media detection (`MediaDetectionService`)

The browser primitives the detector calls — `new URL(u).pathname` and
`new URL(u, base).href` — are modelled by an explicit `URLModel`
(returning `none` where the constructor would throw).  The DOM produced
by `DOMParser` is modelled by `PageData`: the attribute values the
`querySelectorAll` loops would visit, with `none` for a missing
attribute. -/

inductive MediaType
  | image
  | video
  | audio
  | other
deriving DecidableEq, Repr

/-- The `MediaItem` interface of `MediaDetectionService.ts`. -/
structure MediaItem where
  url : String
  type : MediaType
  filename : String
  size : Option String := none
  dimensions : Option String := none
  thumbnail : Option String := none
deriving DecidableEq, Repr

/-- Abstract model of the WHATWG `URL` constructor. -/
structure URLModel where
  /-- `new URL(u).pathname`; `none` when the constructor throws. -/
  pathname : String → Option String
  /-- `new URL(u, base).href`; `none` when the constructor throws. -/
  resolve : String → String → Option String

/-- `resolveUrl`: `new URL(url, baseUrl).href`, falling back to `url` on a
parse failure. -/
def resolveUrl (m : URLModel) (url baseUrl : String) : String :=
  (m.resolve url baseUrl).getD url

/-- `extractFilename`: last path segment before its first dot, `'file'`
when falsy or on a parse failure. -/
def extractFilename (m : URLModel) (url : String) : String :=
  match m.pathname url with
  | none => "file"
  | some p =>
    let filename := (((p.splitOn "/").getLastD "").splitOn ".").headD ""
    if filename = "" then "file" else filename

/-- `getFileExtension`: the match of `/\.([^.]+)$/` against the pathname
— the non-empty text after the last dot — else `null`. -/
def getFileExtension (m : URLModel) (url : String) : Option String :=
  match m.pathname url with
  | none => none
  | some p =>
    let parts := p.splitOn "."
    if parts.length ≥ 2 then
      let ext := parts.getLastD ""
      if ext = "" then none else some ext
    else none

/-- The `${stem || fallbackStem}.${ext || fallbackExt}` template used for
non-iframe items. -/
def mkDetFilename (m : URLModel) (u fallbackStem fallbackExt : String) : String :=
  let stem := let f := extractFilename m u; if f = "" then fallbackStem else f
  let ext := (getFileExtension m u).getD fallbackExt
  stem ++ "." ++ ext

/-- `x || y` on two optional string attributes followed by `if (x)`:
yields the first truthy (present and non-empty) value. -/
def jsOrAttr (a b : Option String) : Option String :=
  match a with
  | some s => if s ≠ "" then some s else match b with
    | some t => if t ≠ "" then some t else none
    | none => none
  | none => match b with
    | some t => if t ≠ "" then some t else none
    | none => none

/-- An `<img>` element as the detector reads it. -/
structure ImgEl where
  src : Option String
  dataSrc : Option String
  naturalWidth : Nat := 0
  naturalHeight : Nat := 0

/-- A `<video>` element with its nested `<source>` children. -/
structure VideoEl where
  src : Option String
  sourceSrcs : List (Option String)

/-- The element attributes the detector's `querySelectorAll` loops visit. -/
structure PageData where
  imgs : List ImgEl
  videos : List VideoEl
  iframeSrcs : List (Option String)
  audioSrcs : List (Option String)
  /-- `style` attributes of elements matching `[style*="background"]`. -/
  styleAttrs : List String

/-- `extractImages`. -/
def extractImages (m : URLModel) (page : PageData) (baseUrl : String) : List MediaItem :=
  page.imgs.filterMap (fun img =>
    (jsOrAttr img.src img.dataSrc).map (fun src =>
      let absoluteUrl := resolveUrl m src baseUrl
      { url := absoluteUrl
        type := .image
        filename := mkDetFilename m absoluteUrl "image" "jpg"
        dimensions :=
          if img.naturalWidth ≠ 0 ∧ img.naturalHeight ≠ 0 then
            some (toString img.naturalWidth ++ "x" ++ toString img.naturalHeight)
          else none
        thumbnail := some absoluteUrl }))

/-- `extractVideos`: `<video src>`, nested `<source src>`, then iframes
whose `src` contains a known platform domain (iframe urls are not
resolved against the base). -/
def extractVideos (m : URLModel) (page : PageData) (baseUrl : String) : List MediaItem :=
  (page.videos.flatMap (fun v =>
    (match v.src with
     | some src =>
       if src ≠ "" then
         let absoluteUrl := resolveUrl m src baseUrl
         [{ url := absoluteUrl
            type := MediaType.video
            filename := mkDetFilename m absoluteUrl "video" "mp4" }]
       else []
     | none => []) ++
    v.sourceSrcs.filterMap (fun s? => s?.bind (fun src =>
      if src ≠ "" then
        let absoluteUrl := resolveUrl m src baseUrl
        some { url := absoluteUrl
               type := MediaType.video
               filename := mkDetFilename m absoluteUrl "video" "mp4" }
      else none)))) ++
  page.iframeSrcs.filterMap (fun s? => s?.bind (fun src =>
    if src ≠ "" ∧ (jsIncludes src "youtube.com" || jsIncludes src "vimeo.com") = true then
      some { url := src
             type := MediaType.video
             filename :=
               (let f := extractFilename m src
                if f = "" then "embedded-video" else f) ++ ".mp4" }
    else none))

/-- `extractAudio`. -/
def extractAudio (m : URLModel) (page : PageData) (baseUrl : String) : List MediaItem :=
  page.audioSrcs.filterMap (fun s? => s?.bind (fun src =>
    if src ≠ "" then
      let absoluteUrl := resolveUrl m src baseUrl
      some { url := absoluteUrl
             type := MediaType.audio
             filename := mkDetFilename m absoluteUrl "audio" "mp3" }
    else none))

/-- The capture of `/background-image:\s*url\(['"]?([^'"]+)['"]?\)/` at a
fixed position.  After the maximal quote-free run `R`, backtracking ends
the capture either at `R` itself (when a quote and `)` follow) or at the
rightmost `)` strictly inside `R`. -/
def tryBgCapAt (s : List Char) : Option (List Char) :=
  if "background-image:".data.isPrefixOf s then
    let r1 := (s.drop 17).dropWhile Char.isWhitespace
    if "url(".data.isPrefixOf r1 then
      let r2 := r1.drop 4
      let r3 := if r2.headD ' ' == '\'' || r2.headD ' ' == '"' then r2.drop 1 else r2
      let R := r3.takeWhile (notIn ['\'', '"'])
      if R.isEmpty then none
      else
        match r3.drop R.length with
        | q :: ')' :: _ =>
          if q == '\'' || q == '"' then some R
          else none
        | _ =>
          ((List.range R.length).reverse).findSome? (fun i =>
            if 1 ≤ i ∧ R.getD i ' ' == ')' then some (R.take i) else none)
    else none
  else none

/-- `extractCSSMedia`. -/
def extractCSSMedia (m : URLModel) (page : PageData) (baseUrl : String) : List MediaItem :=
  (page.styleAttrs.filter (fun st => jsIncludes st "background")).filterMap (fun st =>
    (scanPos tryBgCapAt st.data).map (fun cap =>
      let url := resolveUrl m (String.mk cap) baseUrl
      { url := url
        type := MediaType.image
        filename := mkDetFilename m url "background" "jpg"
        thumbnail := some url }))

/-- The dedup pass: `filter((item, index, self) => index ===
self.findIndex(t => t.url === item.url))`. -/
def dedupByUrl (l : List MediaItem) : List MediaItem :=
  (l.enum.filter (fun p => l.findIdx (fun t => t.url == p.2.url) == p.1)).map Prod.snd

/-- `handleYouTubeUrl`: synthesize one video descriptor; when no ID is
extracted the filename falls back to `youtube_video` and no thumbnail is
set. -/
def handleYouTubeUrl (url : String) : List MediaItem :=
  let videoId := mdExtractYouTubeId url
  let filename := match videoId with
    | some id => "youtube_" ++ id
    | none => "youtube_video"
  [{ url := url
     type := .video
     filename := filename ++ ".mp4"
     thumbnail := videoId.map (fun id =>
       "https://img.youtube.com/vi/" ++ id ++ "/maxresdefault.jpg") }]

/-- `getSampleMediaItems`: the hardcoded demonstration dataset returned
when fetching or parsing fails. -/
def getSampleMediaItems : List MediaItem := [
  { url := "https://images.unsplash.com/photo-1649972904349-6e44c42644a7"
    type := .image
    filename := "sample-image-1.jpg"
    dimensions := some "1920x1080"
    size := some "2.4 MB"
    thumbnail := some "https://images.unsplash.com/photo-1649972904349-6e44c42644a7?w=400" },
  { url := "https://images.unsplash.com/photo-1488590528505-98d2b5aba04b"
    type := .image
    filename := "sample-image-2.jpg"
    dimensions := some "1600x900"
    size := some "1.8 MB"
    thumbnail := some "https://images.unsplash.com/photo-1488590528505-98d2b5aba04b?w=400" },
  { url := "https://sample-videos.com/zip/10/mp4/SampleVideo_1280x720_1mb.mp4"
    type := .video
    filename := "sample-video.mp4"
    dimensions := some "1280x720"
    size := some "1.0 MB" },
  { url := "https://www.soundjay.com/misc/sounds/bell-ringing-05.wav"
    type := .audio
    filename := "sample-audio.wav"
    size := some "0.5 MB" },
  { url := "https://images.unsplash.com/photo-1516245834210-c4c142787335"
    type := .image
    filename := "sample-image-3.jpg"
    dimensions := some "1800x1200"
    size := some "3.2 MB"
    thumbnail := some "https://images.unsplash.com/photo-1516245834210-c4c142787335?w=400" }]

/-- `detectMedia`: YouTube URLs short-circuit to `handleYouTubeUrl`;
otherwise the page is fetched and scanned (`fetched = some page`) and the
collected items are deduplicated; any fetch/parse exception
(`fetched = none`) yields the sample dataset. -/
def detectMedia (m : URLModel) (url : String) (fetched : Option PageData) : List MediaItem :=
  if (jsIncludes url "youtube.com" || jsIncludes url "youtu.be") = true then
    handleYouTubeUrl url
  else
    match fetched with
    | some page =>
      let mediaItems :=
        extractImages m page url ++ extractVideos m page url ++
        extractAudio m page url ++ extractCSSMedia m page url
      dedupByUrl mediaItems
    | none => getSampleMediaItems

/-! ### Download coordinator (`DownloadService`)

Network and browser effects are an explicit environment: each field gives
the observable outcome of one effectful primitive (`.ok ()` for a
successful fetch-and-save, `.error msg` for a rejected promise). -/

/-- Outcomes of the effectful primitives the download paths call. -/
structure DlEnv where
  /-- `fetch(item.url)` + `blob()` + `saveAs` in `downloadBlobVideo`. -/
  blobFetch : String → Except String Unit
  /-- proxy fetch (incl. the `response.ok` check) + save in
  `downloadDirectMedia`. -/
  proxyFetch : String → Except String Unit
  /-- the `no-cors` fetch fallback + save. -/
  noCorsFetch : String → Except String Unit
  /-- anchor-element click in `createDownloadLink` (url, filename). -/
  anchorDownload : String → String → Except String Unit
  /-- strategy 1: `POST /api/download-youtube` (url, filename) + save. -/
  backend : String → String → Except String Unit
  /-- strategy 2: the `youtube-mp4-downloader.vercel.app` service. -/
  service2 : String → Except String Unit
  /-- strategy 3: the `api.vevioz.com` service. -/
  service3 : String → Except String Unit

/-- `createDownloadLink`: the anchor click, falling back to
`window.open`; neither path throws to the caller. -/
def createDownloadLink (env : DlEnv) (url filename : String) : Unit :=
  match env.anchorDownload url filename with
  | .ok _ => ()
  | .error _ => ()

/-- `downloadDirectMedia`: proxy fetch, then `no-cors` fetch, then
`createDownloadLink`; every failure is swallowed by the next fallback. -/
def downloadDirectMedia (env : DlEnv) (item : MediaItem) : Except String Unit :=
  match env.proxyFetch item.url with
  | .ok _ => .ok ()
  | .error _ =>
    match env.noCorsFetch item.url with
    | .ok _ => .ok ()
    | .error _ =>
      let _ := createDownloadLink env item.url item.filename
      .ok ()

/-- `downloadBlobVideo`: a direct fetch of the blob reference; errors are
rethrown. -/
def downloadBlobVideo (env : DlEnv) (item : MediaItem) : Except String Unit :=
  env.blobFetch item.url

/-- The composite message thrown when the strategy loop exhausts
(`lastError?.message` is `undefined` when no strategy ran). -/
def allFailedMsg (last : Option String) : String :=
  "All YouTube download services failed. To use yt-dlp backend, please install yt-dlp (pip install yt-dlp) and run the server with 'npm run dev:full'. Last error: " ++
    (match last with | some m => m | none => "undefined")

/-- The `for (let i = 0; …)` strategy loop of `downloadYouTubeVideo`:
returns the outcome together with the 1-based indices of the strategies
actually invoked, in invocation order. -/
def tryServicesAux : List (Except String Unit) → Nat → Option String →
    Except String Unit × List Nat
  | [], _, last => (.error (allFailedMsg last), [])
  | s :: rest, i, _last =>
    match s with
    | .ok _ => (.ok (), [i])
    | .error e =>
      let r := tryServicesAux rest (i + 1) (some e)
      (r.1, i :: r.2)

/-- `downloadYouTubeVideo`: the ordered three-strategy chain (the
`videoId` argument is accepted but, as in the source, unused by the
strategies, which all work from `item.url`). -/
def downloadYouTubeVideo (env : DlEnv) (item : MediaItem) (_videoId : String) :
    Except String Unit × List Nat :=
  tryServicesAux
    [env.backend item.url item.filename,
     env.service2 item.url,
     env.service3 item.url] 1 none

/-- `downloadEmbeddedVideo`: YouTube URLs go through ID extraction (a
thrown extraction error propagates) and the strategy chain; other
embedded URLs try the direct path. -/
def downloadEmbeddedVideo (env : DlEnv) (item : MediaItem) : Except String Unit :=
  if (jsIncludes item.url "youtube.com" || jsIncludes item.url "youtu.be") = true then
    match dsExtractYouTubeId item.url with
    | .error e => .error e
    | .ok videoId =>
      match (downloadYouTubeVideo env item videoId).1 with
      | .ok _ => .ok ()
      | .error _ => .error "Failed to download YouTube video"
  else
    match downloadDirectMedia env item with
    | .ok _ => .ok ()
    | .error _ => .error "Failed to download embedded video"

/-- The branch taken by `downloadMedia`'s `if / else if / else`. -/
inductive Branch
  | blob
  | embedded
  | direct
deriving DecidableEq, Repr

/-- The dispatch condition chain of `downloadMedia`, in source order. -/
def dispatch (item : MediaItem) : Branch :=
  if item.type == MediaType.video && jsIncludes item.url "blob:" then .blob
  else if jsIncludes item.url "youtube.com" || jsIncludes item.url "youtu.be" ||
      jsIncludes item.url "vimeo.com" then .embedded
  else .direct

/-- `downloadMedia`: dispatch, run the selected path, and wrap any error
as `Failed to download ${item.filename}`.  The second component records
which branches ran. -/
def downloadMediaRun (env : DlEnv) (item : MediaItem) : Except String Unit × List Branch :=
  let r :=
    if item.type == MediaType.video && jsIncludes item.url "blob:" then
      (downloadBlobVideo env item, [Branch.blob])
    else if jsIncludes item.url "youtube.com" || jsIncludes item.url "youtu.be" ||
        jsIncludes item.url "vimeo.com" then
      (downloadEmbeddedVideo env item, [Branch.embedded])
    else
      (downloadDirectMedia env item, [Branch.direct])
  match r.1 with
  | .ok _ => (.ok (), r.2)
  | .error _ => (.error ("Failed to download " ++ item.filename), r.2)

/-- The settled outcome of one `downloadMedia` promise. -/
def downloadMediaResult (env : DlEnv) (item : MediaItem) : Except String Unit :=
  (downloadMediaRun env item).1

/-- `downloadAll`: `Promise.allSettled(items.map(downloadMedia))` — the
per-item settled statuses, one per descriptor, in order. -/
def downloadAll (env : DlEnv) (items : List MediaItem) : List (Except String Unit) :=
  items.map (fun item => downloadMediaResult env item)

/-- Whether a settled outcome is a rejection. -/
def isFailure : Except String Unit → Bool
  | .error _ => true
  | .ok _ => false

/-! ### Backend server (`POST /api/download-youtube`, quality variant)

The subprocess and stream events are enumerated: a request that reaches
the spawn either ends with the produced file streamed (stream `end` or
`error`), an empty temp directory, a nonzero tool exit, or a spawn
`error` event. -/

/-- The `qualityFormats` object: yt-dlp format selectors per quality key. -/
def qualityFormats (q : String) : Option String :=
  if q = "maximum" then
    some "bestvideo[height>=2160]+bestaudio/bestvideo[height>=1440]+bestaudio/bestvideo[height>=1080]+bestaudio/bestvideo+bestaudio/best"
  else if q = "high" then
    some "bestvideo[height<=1080][ext=mp4]+bestaudio[ext=m4a]/best[height<=1080][ext=mp4]/bestvideo[height<=1080]+bestaudio/best"
  else if q = "medium" then
    some "bestvideo[height<=720][ext=mp4]+bestaudio[ext=m4a]/best[height<=720][ext=mp4]/bestvideo[height<=720]+bestaudio/best"
  else if q = "low" then
    some "bestvideo[height<=480][ext=mp4]+bestaudio[ext=m4a]/best[height<=480][ext=mp4]/bestvideo[height<=480]+bestaudio/best"
  else if q = "audio" then
    some "bestaudio[ext=m4a]/bestaudio[ext=mp3]/bestaudio"
  else none

/-- The own-property names of `Object.prototype` (including the
`__proto__` accessor).  A JavaScript member lookup
`qualityFormats[quality]` on the object literal falls back to the
prototype chain, so for these names it yields the inherited function or
object — a truthy value — even though the literal has no such entry. -/
def objectPrototypeMembers : List String :=
  ["constructor", "hasOwnProperty", "isPrototypeOf", "propertyIsEnumerable",
   "toLocaleString", "toString", "valueOf", "__proto__",
   "__defineGetter__", "__defineSetter__", "__lookupGetter__", "__lookupSetter__"]

/-- Result of the JavaScript lookup `qualityFormats[quality]`: an own
entry (a format-selector string), a truthy inherited `Object.prototype`
member, or `undefined`. -/
inductive QualityLookup
  | own (fmt : String)
  | inherited
  | undefined
deriving DecidableEq, Repr

/-- The member lookup `qualityFormats[quality]` with its prototype-chain
fallback. -/
def qualityLookup (q : String) : QualityLookup :=
  match qualityFormats q with
  | some fmt => .own fmt
  | none => if objectPrototypeMembers.contains q then .inherited else .undefined

/-- The yt-dlp argument list: base arguments, the `splice(2, 0, …)` and
thumbnail flags for video qualities, then the url. -/
def buildYtDlpArgs (fmt q tempDir url : String) : List String :=
  let outputTemplate := tempDir ++ "/%(title)s.%(ext)s"
  let base := ["--format", fmt, "--output", outputTemplate, "--no-playlist",
    "--restrict-filenames", "--embed-metadata"]
  let args :=
    if q ≠ "audio" then
      base.take 2 ++ ["--merge-output-format", "mp4"] ++ base.drop 2 ++
        ["--write-thumbnail", "--embed-thumbnail"]
    else base
  args ++ [url]

/-- Observable server-side effects of one request. -/
inductive ServerStep
  | versionCheck
  | spawnYtDlp (args : List String)
  | rmTempDir
deriving DecidableEq, Repr

/-- A response sent for the request. -/
inductive ServerResponse
  | json (status : Nat) (error : String) (details : Option String)
  | file (filename : String)
deriving DecidableEq, Repr

/-- How the spawned yt-dlp process and the response stream complete. -/
inductive YtOutcome
  /-- exit 0, files found, file streamed to completion. -/
  | streamEnd (files : List String)
  /-- exit 0, files found, the read stream errored mid-transfer. -/
  | streamError (files : List String) (msg : String)
  /-- exit 0 but the temp directory is empty. -/
  | noFiles
  /-- nonzero exit code. -/
  | exitNonzero (code : Int) (stderr stdout : String)
  /-- the `error` event: the process could not be started. -/
  | spawnError (msg : String)

/-- Environment of one request: tool availability (the result of the
`yt-dlp --version` check), the `mkdtempSync` result, how the spawned
process completes, and — when the quality named an inherited
`Object.prototype` member — the engine-dependent text that member
coerces to (Node's process wrapper converts each spawn argument with the
JavaScript `ToString` operation, so the inherited function or object
reaches yt-dlp as this string). -/
structure ServerEnv where
  ytDlpAvailable : Bool
  tempDir : String
  outcome : YtOutcome
  inheritedFormatText : String

/-- The final state of one request. -/
structure ReqResult where
  response : ServerResponse
  steps : List ServerStep
  tempDirCreated : Bool
  tempDirDeleted : Bool
deriving DecidableEq, Repr

/-- `filename || files[0]`. -/
def finalFilename (filename : Option String) (files : List String) : String :=
  match filename with
  | some f => if f ≠ "" then f else files.headD ""
  | none => files.headD ""

/-- Everything after the quality check passes: the yt-dlp version check,
the spawn with `qualityFormats[quality]` (already coerced to the string
`fmt`) as format selector, and the completion paths with their
temp-directory cleanup. -/
def ytDlpPhase (env : ServerEnv) (urlVal : String) (filename : Option String)
    (q fmt : String) : ReqResult :=
  if !env.ytDlpAvailable then
    ⟨.json 500 "yt-dlp is not installed. Please install it with: pip install yt-dlp" none,
     [.versionCheck], false, false⟩
  else
    let args := buildYtDlpArgs fmt q env.tempDir urlVal
    let pre : List ServerStep := [.versionCheck, .spawnYtDlp args]
    match env.outcome with
    | .streamEnd files =>
      ⟨.file (finalFilename filename files), pre ++ [.rmTempDir], true, true⟩
    | .streamError files _ =>
      ⟨.file (finalFilename filename files), pre ++ [.rmTempDir], true, true⟩
    | .noFiles =>
      ⟨.json 500 "No file was downloaded" none, pre ++ [.rmTempDir], true, true⟩
    | .exitNonzero code stderr stdout =>
      ⟨.json 500 ("yt-dlp failed with code " ++ toString code)
         (some (if stderr ≠ "" then stderr else stdout)), pre ++ [.rmTempDir], true, true⟩
    | .spawnError msg =>
      ⟨.json 500 "Failed to start yt-dlp" (some msg), pre ++ [.rmTempDir], true, true⟩

/-- The `POST /api/download-youtube` handler (quality-aware variant):
body validation, the `!qualityFormats[quality]` truthiness check (which
a truthy inherited `Object.prototype` member also passes), tool check,
spawn, and the completion paths. -/
def handleDownloadRequest (env : ServerEnv) (url filename quality : Option String) :
    ReqResult :=
  let urlVal := url.getD ""
  if urlVal = "" then
    ⟨.json 400 "URL is required" none, [], false, false⟩
  else
    let q := quality.getD "high"
    match qualityLookup q with
    | .undefined => ⟨.json 400 "Invalid quality option" none, [], false, false⟩
    | .own fmt => ytDlpPhase env urlVal filename q fmt
    | .inherited => ytDlpPhase env urlVal filename q env.inheritedFormatText

/-! ### Concrete instances used by the witnesses -/

/-- A URL model whose constructor always throws; detection still behaves
(every fallback kicks in). -/
def trivialURLModel : URLModel := ⟨fun _ => none, fun _ _ => none⟩

/-- Environment where strategy 1 fails and strategy 2 succeeds. -/
def envS2 : DlEnv :=
  { blobFetch := fun _ => .ok ()
    proxyFetch := fun _ => .ok ()
    noCorsFetch := fun _ => .ok ()
    anchorDownload := fun _ _ => .ok ()
    backend := fun _ _ => .error "Backend download failed: 500"
    service2 := fun _ => .ok ()
    service3 := fun _ => .error "Service failed: 503" }

/-- Environment where every strategy fails. -/
def envAllFail : DlEnv :=
  { blobFetch := fun _ => .error "blob gone"
    proxyFetch := fun _ => .error "HTTP error! status: 403"
    noCorsFetch := fun _ => .error "TypeError: Failed to fetch"
    anchorDownload := fun _ _ => .error "click failed"
    backend := fun _ _ => .error "Backend download failed: 500"
    service2 := fun _ => .error "Service failed: 503"
    service3 := fun _ => .error "No download URL provided" }

/-- A YouTube video descriptor. -/
def itemYt : MediaItem :=
  { url := "https://www.youtube.com/watch?v=dQw4w9WgXcQ"
    type := .video
    filename := "youtube_dQw4w9WgXcQ.mp4" }

/-! ### C1 / C2: the external service chain -/

/-- C1: in `downloadYouTubeVideo`, if strategy 1 (local backend) fails and
strategy 2 (external web API #1) succeeds, the overall outcome is success
and only strategies 1 and 2 run, in that order — strategy 3 is never
invoked. -/
theorem youtube_chain_short_circuits (env : DlEnv) (item : MediaItem) (videoId e : String)
    (h1 : env.backend item.url item.filename = .error e)
    (h2 : env.service2 item.url = .ok ()) :
    downloadYouTubeVideo env item videoId = (.ok (), [1, 2]) := by
  simp [downloadYouTubeVideo, tryServicesAux, h1, h2]

/-- Witness for C1 at a concrete environment and descriptor. -/
theorem youtube_chain_short_circuits_witness :
    downloadYouTubeVideo envS2 itemYt "dQw4w9WgXcQ" = (.ok (), [1, 2]) :=
  youtube_chain_short_circuits envS2 itemYt "dQw4w9WgXcQ" "Backend download failed: 500"
    rfl rfl

/-- C2: if all three strategies fail, `downloadYouTubeVideo` rejects with
the composite message, which ends with the last strategy's error message
and contains the yt-dlp installation hint; all three strategies were
invoked in order. -/
theorem youtube_chain_exhaustion (env : DlEnv) (item : MediaItem) (videoId e1 e2 e3 : String)
    (h1 : env.backend item.url item.filename = .error e1)
    (h2 : env.service2 item.url = .error e2)
    (h3 : env.service3 item.url = .error e3) :
    downloadYouTubeVideo env item videoId = (.error (allFailedMsg (some e3)), [1, 2, 3]) ∧
    (∃ p, allFailedMsg (some e3) = p ++ e3) ∧
    (∃ a b, allFailedMsg (some e3) = a ++ "install yt-dlp (pip install yt-dlp)" ++ b) := by
  refine ⟨by simp [downloadYouTubeVideo, tryServicesAux, h1, h2, h3], ⟨_, rfl⟩, ?_⟩
  refine ⟨"All YouTube download services failed. To use yt-dlp backend, please ",
    " and run the server with 'npm run dev:full'. Last error: " ++ e3, ?_⟩
  have h0 : allFailedMsg (some e3) =
      "All YouTube download services failed. To use yt-dlp backend, please install yt-dlp (pip install yt-dlp) and run the server with 'npm run dev:full'. Last error: " ++ e3 :=
    rfl
  have hsplit :
      ("All YouTube download services failed. To use yt-dlp backend, please install yt-dlp (pip install yt-dlp) and run the server with 'npm run dev:full'. Last error: " : String) =
      "All YouTube download services failed. To use yt-dlp backend, please " ++
        "install yt-dlp (pip install yt-dlp)" ++
        " and run the server with 'npm run dev:full'. Last error: " := by decide
  rw [h0, hsplit, String.append_assoc]

/-- Witness for C2 at a concrete all-failing environment. -/
theorem youtube_chain_exhaustion_witness :
    downloadYouTubeVideo envAllFail itemYt "dQw4w9WgXcQ" =
      (.error (allFailedMsg (some "No download URL provided")), [1, 2, 3]) ∧
    (∃ p, allFailedMsg (some "No download URL provided") = p ++ "No download URL provided") ∧
    (∃ a b, allFailedMsg (some "No download URL provided") =
      a ++ "install yt-dlp (pip install yt-dlp)" ++ b) :=
  youtube_chain_exhaustion envAllFail itemYt "dQw4w9WgXcQ"
    "Backend download failed: 500" "Service failed: 503" "No download URL provided"
    rfl rfl rfl

/-! ### C10: the generic direct-media path -/

/-- Every run of the direct path resolves, whatever the environment. -/
lemma downloadDirectMedia_ok (env : DlEnv) (item : MediaItem) :
    downloadDirectMedia env item = .ok () := by
  unfold downloadDirectMedia
  cases env.proxyFetch item.url with
  | ok _ => rfl
  | error _ =>
    cases env.noCorsFetch item.url with
    | ok _ => rfl
    | error _ => rfl

/-- C10: `downloadDirectMedia` always resolves successfully — whatever
the outcomes of the proxy fetch, the no-cors fetch and the anchor click,
every failure is swallowed by the next fallback, so coordinator success
on this path does not imply any bytes were saved. -/
theorem direct_media_never_fails (env : DlEnv) (item : MediaItem) :
    downloadDirectMedia env item = .ok () :=
  downloadDirectMedia_ok env item

/-! ### C8 / C9: the backend handler -/

/-- The version check runs on every path of the post-validation phase. -/
lemma versionCheck_mem_ytDlpPhase (env : ServerEnv) (urlVal : String)
    (filename : Option String) (q fmt : String) :
    ServerStep.versionCheck ∈ (ytDlpPhase env urlVal filename q fmt).steps := by
  unfold ytDlpPhase
  cases henv : env.ytDlpAvailable <;> cases ho : env.outcome <;> simp [henv, ho]

/-- A server environment with yt-dlp absent, so a request that passes
validation stops right after the version check. -/
def envProto : ServerEnv :=
  { ytDlpAvailable := false
    tempDir := "/tmp/ytdl-proto"
    outcome := .noFiles
    inheritedFormatText := "[object Object]" }

/-- Counterexample to C8 as stated: `constructor` is outside the five
quality keys — `qualityFormats` has no such own entry — yet the request
is not answered 400 before any subprocess: the member lookup finds the
truthy inherited `Object.prototype.constructor`, the validation is
skipped, and the yt-dlp version-check subprocess is spawned (here yt-dlp
is absent, so the request ends in the 500 that follows that check). -/
theorem quality_proto_counterexample :
    qualityFormats "constructor" = none ∧
    (handleDownloadRequest envProto
       (some "https://youtu.be/dQw4w9WgXcQ") none (some "constructor")).steps =
      [ServerStep.versionCheck] ∧
    (handleDownloadRequest envProto
       (some "https://youtu.be/dQw4w9WgXcQ") none (some "constructor")).response =
      .json 500 "yt-dlp is not installed. Please install it with: pip install yt-dlp"
        none :=
  ⟨rfl, rfl, rfl⟩

/-- C8 (amended): the five quality keys map to pairwise-distinct,
non-empty format selectors; a request whose quality value is outside
this set *and* does not name an inherited `Object.prototype` member gets
a 400 response with no server-side step taken — neither the
version-check subprocess nor yt-dlp is spawned; but a quality value
naming an inherited member (`constructor`, `toString`, …) passes the
`!qualityFormats[quality]` truthiness check and reaches the spawned
tool-version check. -/
theorem quality_validation_amended :
    (∀ q ∈ (["maximum", "high", "medium", "low", "audio"] : List String),
       ∃ f, qualityFormats q = some f ∧ f ≠ "") ∧
    ((["maximum", "high", "medium", "low", "audio"] : List String).map
       qualityFormats).Pairwise (· ≠ ·) ∧
    (∀ (env : ServerEnv) (url filename : Option String) (q : String),
       qualityLookup q = .undefined →
       (handleDownloadRequest env url filename (some q)).steps = [] ∧
       ∃ msg d, (handleDownloadRequest env url filename (some q)).response =
         .json 400 msg d) ∧
    (∀ (env : ServerEnv) (url : String) (filename : Option String) (q : String),
       url ≠ "" → qualityLookup q = .inherited →
       ServerStep.versionCheck ∈
         (handleDownloadRequest env (some url) filename (some q)).steps) := by
  refine ⟨?_, by decide, ?_, ?_⟩
  · intro q hq
    simp only [List.mem_cons, List.not_mem_nil, or_false] at hq
    rcases hq with rfl | rfl | rfl | rfl | rfl <;> exact ⟨_, rfl, by decide⟩
  · intro env url filename q hq
    have hmain : handleDownloadRequest env url filename (some q) =
        if url.getD "" = "" then ⟨.json 400 "URL is required" none, [], false, false⟩
        else ⟨.json 400 "Invalid quality option" none, [], false, false⟩ := by
      unfold handleDownloadRequest
      by_cases hu : url.getD "" = ""
      · rw [if_pos hu, if_pos hu]
      · rw [if_neg hu, if_neg hu]
        simp only [Option.getD_some, hq]
    rw [hmain]
    by_cases hu : url.getD "" = ""
    · rw [if_pos hu]
      exact ⟨rfl, "URL is required", none, rfl⟩
    · rw [if_neg hu]
      exact ⟨rfl, "Invalid quality option", none, rfl⟩
  · intro env url filename q hu hq
    unfold handleDownloadRequest
    simp only [Option.getD_some, hq, if_neg hu]
    exact versionCheck_mem_ytDlpPhase env url filename q env.inheritedFormatText

/-- Witness for C8 (amended): `ultra` is rejected up front with no steps
taken, while `toString` slips past the validation to the version
check. -/
theorem quality_validation_amended_witness :
    (handleDownloadRequest envProto (some "https://youtu.be/dQw4w9WgXcQ") none
       (some "ultra")).steps = [] ∧
    ServerStep.versionCheck ∈
      (handleDownloadRequest envProto (some "https://youtu.be/dQw4w9WgXcQ") none
        (some "toString")).steps :=
  ⟨(quality_validation_amended.2.2.1 envProto (some "https://youtu.be/dQw4w9WgXcQ")
      none "ultra" rfl).1,
   quality_validation_amended.2.2.2 envProto "https://youtu.be/dQw4w9WgXcQ" none
     "toString" (by decide) rfl⟩

/-- Every completion path of the post-validation phase ends with the
temp directory it created deleted. -/
lemma ytDlpPhase_cleanup (env : ServerEnv) (urlVal : String)
    (filename : Option String) (q fmt : String) :
    (ytDlpPhase env urlVal filename q fmt).tempDirCreated = true →
    (ytDlpPhase env urlVal filename q fmt).tempDirDeleted = true ∧
    ServerStep.rmTempDir ∈ (ytDlpPhase env urlVal filename q fmt).steps := by
  unfold ytDlpPhase
  cases henv : env.ytDlpAvailable <;> cases ho : env.outcome <;> simp [henv, ho]

/-- C9: whenever a request gets far enough to create its temporary
directory (and hence spawn yt-dlp), the directory is deleted on every
completion path — stream end, stream error, empty output, nonzero exit,
and spawn error. -/
theorem temp_dir_cleanup (env : ServerEnv) (url filename quality : Option String) :
    (handleDownloadRequest env url filename quality).tempDirCreated = true →
    (handleDownloadRequest env url filename quality).tempDirDeleted = true ∧
    ServerStep.rmTempDir ∈ (handleDownloadRequest env url filename quality).steps := by
  unfold handleDownloadRequest
  by_cases hu : url.getD "" = ""
  · simp [hu]
  · rw [if_neg hu]
    cases hq : qualityLookup (quality.getD "high") with
    | undefined => simp [hq]
    | own fmt =>
      simp only [hq]
      exact ytDlpPhase_cleanup env _ filename _ fmt
    | inherited =>
      simp only [hq]
      exact ytDlpPhase_cleanup env _ filename _ env.inheritedFormatText

/-- Witness for C9: a request whose yt-dlp spawn fails still deletes the
temp directory. -/
theorem temp_dir_cleanup_witness :
    (handleDownloadRequest
       ⟨true, "/tmp/ytdl-abc", .spawnError "spawn ENOENT", "[object Object]"⟩
       (some "https://youtu.be/dQw4w9WgXcQ") (some "a.mp4") (some "high")).tempDirDeleted
      = true ∧
    ServerStep.rmTempDir ∈
      (handleDownloadRequest
        ⟨true, "/tmp/ytdl-abc", .spawnError "spawn ENOENT", "[object Object]"⟩
        (some "https://youtu.be/dQw4w9WgXcQ") (some "a.mp4") (some "high")).steps :=
  temp_dir_cleanup ⟨true, "/tmp/ytdl-abc", .spawnError "spawn ENOENT", "[object Object]"⟩
    (some "https://youtu.be/dQw4w9WgXcQ") (some "a.mp4") (some "high") (by decide)

/-! ### C6: coordinator dispatch -/

/-- Counterexample to C6 as stated: the first dispatch condition is a
substring check, not a blob-scheme check — a `video` item whose `https`
URL merely contains `blob:` in its query string is routed to the blob
branch. -/
theorem dispatch_claim_counterexample :
    dispatch { url := "https://example.com/x?y=blob:123", type := .video,
               filename := "clip.mp4" } = .blob ∧
    "blob:".data.isPrefixOf "https://example.com/x?y=blob:123".data = false := by
  constructor
  · rfl
  · rfl

/-- C6 (amended): `downloadMedia` routes by checking, in order, (1)
`kind == video` and the url *contains* `blob:`, (2) the url *contains*
`youtube.com`, `youtu.be` or `vimeo.com`, (3) otherwise the generic
direct path; exactly one branch runs per descriptor, and a blob-branch
failure is fatal for the item with no further fallback. -/
theorem dispatch_order (item : MediaItem) (env : DlEnv) :
    (dispatch item = .blob ↔
      (item.type = .video ∧ jsIncludes item.url "blob:" = true)) ∧
    (dispatch item = .embedded ↔
      (¬(item.type = .video ∧ jsIncludes item.url "blob:" = true) ∧
       (jsIncludes item.url "youtube.com" || jsIncludes item.url "youtu.be" ||
        jsIncludes item.url "vimeo.com") = true)) ∧
    (dispatch item = .direct ↔
      (¬(item.type = .video ∧ jsIncludes item.url "blob:" = true) ∧
       ¬((jsIncludes item.url "youtube.com" || jsIncludes item.url "youtu.be" ||
          jsIncludes item.url "vimeo.com") = true))) ∧
    (downloadMediaRun env item).2 = [dispatch item] ∧
    (∀ e, env.blobFetch item.url = .error e → dispatch item = .blob →
      downloadMediaRun env item =
        (.error ("Failed to download " ++ item.filename), [.blob])) := by
  by_cases h1 : (item.type == MediaType.video && jsIncludes item.url "blob:") = true
  · have h1' : item.type = .video ∧ jsIncludes item.url "blob:" = true := by
      simpa [Bool.and_eq_true, beq_iff_eq] using h1
    have hd : dispatch item = .blob := by simp [dispatch, h1]
    refine ⟨by simp [hd, h1'], by simp [hd, h1'], by simp [hd, h1'], ?_, ?_⟩
    · rw [hd]
      cases hb : downloadBlobVideo env item <;>
        simp [downloadMediaRun, h1, downloadBlobVideo] at hb ⊢ <;> simp [hb]
    · intro e he _
      simp [downloadMediaRun, downloadBlobVideo, h1, he]
  · have h1' : ¬(item.type = .video ∧ jsIncludes item.url "blob:" = true) := by
      simpa [Bool.and_eq_true, beq_iff_eq] using h1
    by_cases h2 : (jsIncludes item.url "youtube.com" || jsIncludes item.url "youtu.be" ||
        jsIncludes item.url "vimeo.com") = true
    · have hd : dispatch item = .embedded := by simp [dispatch, h1, h2]
      refine ⟨by simp [hd, h1'], by simp [hd, h1', h2], by simp [hd, h2], ?_, ?_⟩
      · rw [hd]
        cases hb : downloadEmbeddedVideo env item <;>
          simp [downloadMediaRun, h1, h2, hb]
      · intro e _ hcontra
        rw [hd] at hcontra
        cases hcontra
    · have hd : dispatch item = .direct := by simp [dispatch, h1, h2]
      refine ⟨by simp [hd, h1'], by simp [hd, h2], by simp [hd, h1', h2], ?_, ?_⟩
      · rw [hd]
        simp [downloadMediaRun, h1, h2, downloadDirectMedia_ok]
      · intro e _ hcontra
        rw [hd] at hcontra
        cases hcontra

/-- Witness for C6 (amended) at a blob item whose fetch fails. -/
theorem dispatch_order_witness :
    dispatch { url := "blob:https://site/55-66", type := MediaType.video,
               filename := "vid.mp4" } = .blob ∧
    downloadMediaRun envAllFail
        { url := "blob:https://site/55-66", type := MediaType.video,
          filename := "vid.mp4" } =
      (.error ("Failed to download " ++ "vid.mp4"), [.blob]) :=
  ⟨((dispatch_order
      { url := "blob:https://site/55-66", type := MediaType.video, filename := "vid.mp4" }
      envAllFail).1).mpr ⟨rfl, by decide⟩,
   (dispatch_order
      { url := "blob:https://site/55-66", type := MediaType.video, filename := "vid.mp4" }
      envAllFail).2.2.2.2 "blob gone" rfl
     (((dispatch_order
        { url := "blob:https://site/55-66", type := MediaType.video, filename := "vid.mp4" }
        envAllFail).1).mpr ⟨rfl, by decide⟩)⟩

/-! ### C7: the bulk runner -/

/-- C7: `downloadAll` settles one outcome per descriptor — every item is
attempted, an individual failure never aborts the batch, and the failure
and success counts are exactly the per-item counts. -/
theorem bulk_runner_no_early_abort (env : DlEnv) (items : List MediaItem) (i : Nat)
    (h : i < items.length) :
    (downloadAll env items).length = items.length ∧
    (downloadAll env items).get? i = some (downloadMediaResult env (items.get ⟨i, h⟩)) ∧
    (downloadAll env items).countP isFailure =
      items.countP (fun it => isFailure (downloadMediaResult env it)) ∧
    (downloadAll env items).countP (fun r => !isFailure r) =
      items.countP (fun it => !isFailure (downloadMediaResult env it)) := by
  refine ⟨by simp [downloadAll], ?_, ?_, ?_⟩
  · simp [downloadAll, List.get?_eq_getElem?, List.getElem?_map,
      List.getElem?_eq_getElem h, List.get_eq_getElem]
  · rw [show downloadAll env items =
        items.map (fun item => downloadMediaResult env item) from rfl,
      List.countP_map]
    rfl
  · rw [show downloadAll env items =
        items.map (fun item => downloadMediaResult env item) from rfl,
      List.countP_map]
    rfl

/-- Five blob-video descriptors, of which the second and fourth point at
revoked blob urls. -/
def items5 : List MediaItem :=
  [{ url := "blob:https://site/1", type := .video, filename := "v1.mp4" },
   { url := "blob:https://site/2", type := .video, filename := "v2.mp4" },
   { url := "blob:https://site/3", type := .video, filename := "v3.mp4" },
   { url := "blob:https://site/4", type := .video, filename := "v4.mp4" },
   { url := "blob:https://site/5", type := .video, filename := "v5.mp4" }]

/-- Environment failing exactly on the second and fourth blob urls. -/
def env5 : DlEnv :=
  { blobFetch := fun u =>
      if u = "blob:https://site/2" || u = "blob:https://site/4" then
        .error "blob revoked"
      else .ok ()
    proxyFetch := fun _ => .ok ()
    noCorsFetch := fun _ => .ok ()
    anchorDownload := fun _ _ => .ok ()
    backend := fun _ _ => .ok ()
    service2 := fun _ => .ok ()
    service3 := fun _ => .ok () }

/-- Witness for C7: with five items of which items 2 and 4 fail, all five
attempts settle and exactly 2 failures and 3 successes are recorded. -/
theorem bulk_runner_no_early_abort_witness :
    (downloadAll env5 items5).length = 5 ∧
    (downloadAll env5 items5).get? 1 =
      some (downloadMediaResult env5 (items5.get ⟨1, by decide⟩)) ∧
    (downloadAll env5 items5).countP isFailure = 2 ∧
    (downloadAll env5 items5).countP (fun r => !isFailure r) = 3 :=
  ⟨(bulk_runner_no_early_abort env5 items5 1 (by decide)).1.trans (by decide),
   (bulk_runner_no_early_abort env5 items5 1 (by decide)).2.1,
   by decide, by decide⟩

/-! ### C4 / C5: the two ID extractors -/

/-- A successful run of a pattern list stays successful, with the same
capture, when more patterns are appended. -/
lemma runYtPats_append (ps qs : List YtPat) (s cap : List Char)
    (h : runYtPats ps s = some cap) : runYtPats (ps ++ qs) s = some cap := by
  induction ps with
  | nil => simp [runYtPats] at h
  | cons p ps ih =>
    rw [List.cons_append]
    unfold runYtPats at h ⊢
    cases hp : runYtPat p s with
    | none =>
      simp only [hp] at h ⊢
      exact ih h
    | some c =>
      simp only [hp] at h ⊢
      by_cases ha : acceptLen c = true
      · rwa [if_pos ha] at h ⊢
      · rw [if_neg ha] at h ⊢
        exact ih h


/-- Any capture a pattern list returns has passed the length 11-or-10
acceptance check. -/
lemma runYtPats_acceptLen (ps : List YtPat) (s cap : List Char)
    (h : runYtPats ps s = some cap) : acceptLen cap = true := by
  induction ps with
  | nil => simp [runYtPats] at h
  | cons p ps ih =>
    unfold runYtPats at h
    cases hp : runYtPat p s with
    | none =>
      simp only [hp] at h
      exact ih h
    | some c =>
      simp only [hp] at h
      by_cases ha : acceptLen c = true
      · rw [if_pos ha] at h
        cases h
        exact ha
      · rw [if_neg ha] at h
        exact ih h

/-! ### C3: the detection-result invariant -/

/-- A filename that splits as a non-empty stem, a dot, and a non-empty
extension. -/
def goodFilename (f : String) : Prop :=
  ∃ stem ext, f = stem ++ "." ++ ext ∧ stem ≠ "" ∧ ext ≠ ""

/-- `x ++ ".mp4"` is a good filename whenever `x` is non-empty. -/
lemma goodFilename_append_mp4 (x : String) (hx : x ≠ "") :
    goodFilename (x ++ ".mp4") :=
  ⟨x, "mp4",
   by rw [String.append_assoc, show ("." ++ "mp4" : String) = ".mp4" from by decide],
   hx, by decide⟩

lemma extractFilename_ne (m : URLModel) (u : String) : extractFilename m u ≠ "" := by
  unfold extractFilename
  cases hp : m.pathname u with
  | none =>
    simp only [hp]
    decide
  | some p =>
    simp only [hp]
    split
    · decide
    · assumption

lemma getFileExtension_ne (m : URLModel) (u e : String)
    (h : getFileExtension m u = some e) : e ≠ "" := by
  unfold getFileExtension at h
  cases hp : m.pathname u with
  | none =>
    rw [hp] at h
    exact Option.noConfusion h
  | some p =>
    simp only [hp] at h
    split at h
    · split at h
      · exact Option.noConfusion h
      · cases h
        assumption
    · exact Option.noConfusion h

/-- The `${stem || fallback}.${ext || fallback}` template always yields a
good filename. -/
lemma mkDetFilename_spec (m : URLModel) (u fs fe : String)
    (hfs : fs ≠ "") (hfe : fe ≠ "") :
    goodFilename (mkDetFilename m u fs fe) := by
  refine ⟨_, _, rfl, ?_, ?_⟩
  · dsimp only
    split
    · exact hfs
    · exact extractFilename_ne m u
  · dsimp only
    cases hg : getFileExtension m u with
    | none => simpa using hfe
    | some e => simpa using getFileExtension_ne m u e hg

lemma extractImages_good (m : URLModel) (page : PageData) (baseUrl : String) :
    ∀ item ∈ extractImages m page baseUrl, goodFilename item.filename := by
  intro item h
  rcases List.mem_filterMap.mp h with ⟨img, _, heq⟩
  rcases Option.map_eq_some'.mp heq with ⟨src, _, rfl⟩
  exact mkDetFilename_spec m _ "image" "jpg" (by decide) (by decide)

lemma extractVideos_good (m : URLModel) (page : PageData) (baseUrl : String) :
    ∀ item ∈ extractVideos m page baseUrl, goodFilename item.filename := by
  intro item h
  rcases List.mem_append.mp h with h | h
  · rcases List.mem_flatMap.mp h with ⟨v, _, hv⟩
    rcases List.mem_append.mp hv with h1 | h1
    · cases hs : v.src with
      | none =>
        simp only [hs, List.not_mem_nil] at h1
      | some src =>
        simp only [hs] at h1
        split at h1
        · rcases List.mem_singleton.mp h1 with rfl
          exact mkDetFilename_spec m _ "video" "mp4" (by decide) (by decide)
        · exact absurd h1 (List.not_mem_nil item)
    · rcases List.mem_filterMap.mp h1 with ⟨s?, _, hsome⟩
      cases s? with
      | none => exact Option.noConfusion hsome
      | some src =>
        dsimp only [Option.bind] at hsome
        split at hsome
        · cases hsome
          exact mkDetFilename_spec m _ "video" "mp4" (by decide) (by decide)
        · exact Option.noConfusion hsome
  · rcases List.mem_filterMap.mp h with ⟨s?, _, hsome⟩
    cases s? with
    | none => exact Option.noConfusion hsome
    | some src =>
      dsimp only [Option.bind] at hsome
      split at hsome
      · cases hsome
        refine goodFilename_append_mp4 _ ?_
        split
        · decide
        · assumption
      · exact Option.noConfusion hsome

lemma extractAudio_good (m : URLModel) (page : PageData) (baseUrl : String) :
    ∀ item ∈ extractAudio m page baseUrl, goodFilename item.filename := by
  intro item h
  rcases List.mem_filterMap.mp h with ⟨s?, _, hsome⟩
  cases s? with
  | none => exact Option.noConfusion hsome
  | some src =>
    dsimp only [Option.bind] at hsome
    split at hsome
    · cases hsome
      exact mkDetFilename_spec m _ "audio" "mp3" (by decide) (by decide)
    · exact Option.noConfusion hsome

lemma extractCSSMedia_good (m : URLModel) (page : PageData) (baseUrl : String) :
    ∀ item ∈ extractCSSMedia m page baseUrl, goodFilename item.filename := by
  intro item h
  rcases List.mem_filterMap.mp h with ⟨st, _, heq⟩
  rcases Option.map_eq_some'.mp heq with ⟨cap, _, rfl⟩
  exact mkDetFilename_spec m _ "background" "jpg" (by decide) (by decide)

lemma handleYouTubeUrl_good (url : String) :
    ∀ item ∈ handleYouTubeUrl url, goodFilename item.filename := by
  intro item h
  unfold handleYouTubeUrl at h
  rcases List.mem_singleton.mp h with rfl
  cases hv : mdExtractYouTubeId url with
  | none => simp only [hv]; exact goodFilename_append_mp4 "youtube_video" (by decide)
  | some id =>
    simp only [hv]
    refine goodFilename_append_mp4 _ ?_
    intro hc
    have hlen := congrArg String.length hc
    rw [String.length_append] at hlen
    have h8 : ("youtube_" : String).length = 8 := rfl
    have h0 : ("" : String).length = 0 := rfl
    rw [h8, h0] at hlen
    omega

lemma getSampleMediaItems_good :
    ∀ item ∈ getSampleMediaItems, goodFilename item.filename := by
  intro item h
  fin_cases h
  · exact ⟨"sample-image-1", "jpg", by decide, by decide, by decide⟩
  · exact ⟨"sample-image-2", "jpg", by decide, by decide, by decide⟩
  · exact ⟨"sample-video", "mp4", by decide, by decide, by decide⟩
  · exact ⟨"sample-audio", "wav", by decide, by decide, by decide⟩
  · exact ⟨"sample-image-3", "jpg", by decide, by decide, by decide⟩

lemma pairwise_fst_lt_enumFrom {α : Type} (n : Nat) (l : List α) :
    (l.enumFrom n).Pairwise (fun p q => p.1 < q.1) := by
  induction l generalizing n with
  | nil => exact List.Pairwise.nil
  | cons x xs ih =>
    rw [List.enumFrom_cons]
    refine List.Pairwise.cons ?_ (ih (n + 1))
    intro q hq
    have := (List.mk_mem_enumFrom_iff_le_and_getElem?_sub.mp (by simpa using hq)).1
    omega

lemma pairwise_fst_lt_enum {α : Type} (l : List α) :
    l.enum.Pairwise (fun p q => p.1 < q.1) :=
  pairwise_fst_lt_enumFrom 0 l

/-- No two elements of the deduplicated list share a url. -/
lemma dedupByUrl_pairwise (l : List MediaItem) :
    ((dedupByUrl l).map (fun i => i.url)).Pairwise (· ≠ ·) := by
  unfold dedupByUrl
  rw [List.map_map, List.pairwise_map]
  refine ((pairwise_fst_lt_enum l).filter _).imp_of_mem ?_
  intro a b ha hb hlt hurl
  have ha2 : l.findIdx (fun t => t.url == a.2.url) = a.1 := by
    simpa using (List.mem_filter.mp ha).2
  have hb2 : l.findIdx (fun t => t.url == b.2.url) = b.1 := by
    simpa using (List.mem_filter.mp hb).2
  have hfun : (fun t : MediaItem => t.url == a.2.url) =
      (fun t : MediaItem => t.url == b.2.url) := by
    funext t
    simp only [Function.comp] at hurl
    rw [hurl]
  rw [hfun, hb2] at ha2
  omega

/-- Deduplication preserves first-seen order: the result is a sublist. -/
lemma dedupByUrl_sublist (l : List MediaItem) : (dedupByUrl l).Sublist l := by
  unfold dedupByUrl
  have h2 := (List.filter_sublist l.enum (p := fun p =>
    l.findIdx (fun t => t.url == p.2.url) == p.1)).map Prod.snd
  rwa [List.enum_map_snd] at h2

/-- Every url of the input survives deduplication. -/
lemma dedupByUrl_covers (l : List MediaItem) :
    ∀ x ∈ l, ∃ y ∈ dedupByUrl l, y.url = x.url := by
  intro x hx
  have hex : ∃ t ∈ l, (fun t : MediaItem => t.url == x.url) t = true :=
    ⟨x, hx, by simp⟩
  have hlt := List.findIdx_lt_length_of_exists hex
  have hpy : ((l.get ⟨l.findIdx (fun t => t.url == x.url), hlt⟩).url == x.url) = true :=
    @List.findIdx_get MediaItem (fun t => t.url == x.url) l hlt
  have hyx : (l.get ⟨l.findIdx (fun t => t.url == x.url), hlt⟩).url = x.url :=
    by simpa using hpy
  refine ⟨l.get ⟨l.findIdx (fun t => t.url == x.url), hlt⟩, ?_, hyx⟩
  unfold dedupByUrl
  refine List.mem_map.mpr
    ⟨(l.findIdx (fun t => t.url == x.url),
      l.get ⟨l.findIdx (fun t => t.url == x.url), hlt⟩), ?_, rfl⟩
  refine List.mem_filter.mpr ⟨?_, ?_⟩
  · refine List.mk_mem_enum_iff_getElem?.mpr ?_
    rw [List.getElem?_eq_getElem hlt]
    rw [List.get_eq_getElem]
  · have hfun : (fun t : MediaItem =>
        t.url == (l.get ⟨l.findIdx (fun t => t.url == x.url), hlt⟩).url) =
        (fun t : MediaItem => t.url == x.url) := by
      funext t
      rw [hyx]
    rw [hfun]
    simp

/-- Each kept element is the first occurrence of its url. -/
lemma dedupByUrl_first_seen (l : List MediaItem) :
    ∀ x ∈ dedupByUrl l, ∃ i, ∃ h : i < l.length,
      l.get ⟨i, h⟩ = x ∧ l.findIdx (fun t => t.url == x.url) = i := by
  intro x hx
  unfold dedupByUrl at hx
  rcases List.mem_map.mp hx with ⟨p, hp, rfl⟩
  have hmem := (List.mem_filter.mp hp).1
  have hcond := (List.mem_filter.mp hp).2
  have hget : l[p.1]? = some p.2 := by
    have := List.mem_enum_iff_getElem?.mp hmem
    exact this
  rcases List.getElem?_eq_some.mp hget with ⟨hlt, hgeteq⟩
  refine ⟨p.1, hlt, ?_, by simpa using hcond⟩
  rw [List.get_eq_getElem]
  exact hgeteq

/-- C3: for every detection result — YouTube short-circuit, successful
page scan or the sample fallback — urls are pairwise distinct and every
non-`other` descriptor has a non-empty filename carrying an extension;
moreover the dedup pass keeps first-seen occurrences in order. -/
theorem detection_invariant (m : URLModel) (pageUrl : String) (fetched : Option PageData) :
    ((detectMedia m pageUrl fetched).map (fun i => i.url)).Pairwise (· ≠ ·) ∧
    (∀ item ∈ detectMedia m pageUrl fetched, item.type ≠ MediaType.other →
       goodFilename item.filename) ∧
    (∀ l : List MediaItem,
       (dedupByUrl l).Sublist l ∧
       (∀ x ∈ l, ∃ y ∈ dedupByUrl l, y.url = x.url) ∧
       (∀ x ∈ dedupByUrl l, ∃ i, ∃ h : i < l.length,
          l.get ⟨i, h⟩ = x ∧ l.findIdx (fun t => t.url == x.url) = i)) := by
  refine ⟨?_, ?_,
    fun l => ⟨dedupByUrl_sublist l, dedupByUrl_covers l, dedupByUrl_first_seen l⟩⟩
  · unfold detectMedia
    split
    · simp [handleYouTubeUrl]
    · split
      · exact dedupByUrl_pairwise _
      · decide
  · unfold detectMedia
    split
    · intro item h _
      exact handleYouTubeUrl_good pageUrl item h
    · split
      · intro item h _
        have hmem := (dedupByUrl_sublist _).subset h
        rcases List.mem_append.mp hmem with h1 | h1
        · rcases List.mem_append.mp h1 with h2 | h2
          · rcases List.mem_append.mp h2 with h3 | h3
            · exact extractImages_good m _ pageUrl item h3
            · exact extractVideos_good m _ pageUrl item h3
          · exact extractAudio_good m _ pageUrl item h2
        · exact extractCSSMedia_good m _ pageUrl item h1
      · intro item h _
        exact getSampleMediaItems_good item h

/-- A one-image page used by the witness. -/
def pageW : PageData :=
  { imgs := [{ src := some "https://cdn.example.com/pic.png", dataSrc := none }]
    videos := []
    iframeSrcs := []
    audioSrcs := []
    styleAttrs := [] }

/-- The descriptor detection produces for `pageW` under
`trivialURLModel`. -/
def imgItemW : MediaItem :=
  { url := "https://cdn.example.com/pic.png"
    type := .image
    filename := "file.jpg"
    thumbnail := some "https://cdn.example.com/pic.png" }

/-- Witness for C3 at a concrete page with one image. -/
theorem detection_invariant_witness :
    ((detectMedia trivialURLModel "https://example.com/gallery" (some pageW)).map
       (fun i => i.url)).Pairwise (· ≠ ·) ∧
    goodFilename imgItemW.filename :=
  ⟨(detection_invariant trivialURLModel "https://example.com/gallery" (some pageW)).1,
   (detection_invariant trivialURLModel "https://example.com/gallery" (some pageW)).2.1
     imgItemW (by decide) (by decide)⟩

/-- Counterexample to C4 as stated: on
`https://www.youtube.com/watch?v=abc` (a known watch-shape URL whose ID
has length 3, so both extractors are unresolved) the detector does *not*
fail — `detectMedia` succeeds with a placeholder descriptor named
`youtube_video.mp4`; only the download-path extractor throws. -/
theorem detection_placeholder_counterexample :
    detectMedia trivialURLModel "https://www.youtube.com/watch?v=abc" none =
      [{ url := "https://www.youtube.com/watch?v=abc", type := .video,
         filename := "youtube_video.mp4", size := none, dimensions := none,
         thumbnail := none }] ∧
    mdExtractYouTubeId "https://www.youtube.com/watch?v=abc" = none ∧
    dsExtractYouTubeId "https://www.youtube.com/watch?v=abc" =
      .error "Could not extract YouTube ID from URL: https://www.youtube.com/watch?v=abc" :=
  ⟨by decide, by decide, by decide⟩

/-- C4 (amended): the download-path extractor tries its ordered pattern
list accepting the first capture of length 11 or 10, retries with the
broad catch-all under the same length check, and otherwise throws — so
every ID it returns has length 11 or 10; the detector's extractor, in
contrast, has no catch-all, and when it is unresolved the detection does
not fail but synthesizes the placeholder descriptor
`youtube_video.mp4`. -/
theorem extractor_id_length_and_placeholder :
    (∀ url id, dsExtractYouTubeId url = .ok id →
       id.length = 11 ∨ id.length = 10) ∧
    (∀ url, mdExtractYouTubeId url = none →
       handleYouTubeUrl url =
         [{ url := url, type := .video, filename := "youtube_video.mp4",
            size := none, dimensions := none, thumbnail := none }]) := by
  constructor
  · intro url id h
    simp only [dsExtractYouTubeId] at h
    have hlen : ∀ cap : List Char, acceptLen cap = true →
        (String.mk cap).length = 11 ∨ (String.mk cap).length = 10 := by
      intro cap hc
      simpa [acceptLen, String.length] using hc
    cases hp : runYtPats dsPatterns (cleanYtUrl url).data with
    | some cap =>
      simp only [hp] at h
      cases h
      exact hlen cap (runYtPats_acceptLen _ _ _ hp)
    | none =>
      simp only [hp] at h
      cases hf : fallbackMatch (cleanYtUrl url).data with
      | none =>
        simp only [hf] at h
        exact Except.noConfusion h
      | some cap =>
        simp only [hf] at h
        by_cases hc : (!cap.isEmpty && acceptLen cap) = true
        · rw [if_pos hc] at h
          cases h
          exact hlen cap (Bool.and_elim_right hc)
        · rw [if_neg hc] at h
          cases h
  · intro url h
    unfold handleYouTubeUrl
    rw [h]
    rfl

/-- Witness for C4 (amended): a returned ID of length 11, and the
placeholder taken at an unresolvable watch URL. -/
theorem extractor_id_length_and_placeholder_witness :
    (("dQw4w9WgXcQ" : String).length = 11 ∨ ("dQw4w9WgXcQ" : String).length = 10) ∧
    handleYouTubeUrl "https://www.youtube.com/watch?v=abc" =
      [{ url := "https://www.youtube.com/watch?v=abc", type := .video,
         filename := "youtube_video.mp4", size := none, dimensions := none,
         thumbnail := none }] :=
  ⟨extractor_id_length_and_placeholder.1 "https://youtu.be/dQw4w9WgXcQ" "dQw4w9WgXcQ" rfl,
   extractor_id_length_and_placeholder.2 "https://www.youtube.com/watch?v=abc" rfl⟩

/-- Counterexample to C5 as stated: on
`https://www.youtube.com/shorts/dQw4w9WgXcQ` the detector's extractor
fails while the download path's succeeds — the two extractors do not
fail on the same set of URLs. -/
theorem extractor_equivalence_counterexample :
    mdExtractYouTubeId "https://www.youtube.com/shorts/dQw4w9WgXcQ" = none ∧
    dsExtractYouTubeId "https://www.youtube.com/shorts/dQw4w9WgXcQ" = .ok "dQw4w9WgXcQ" :=
  ⟨rfl, rfl⟩

/-- C5 (amended): the extractors agree in one direction only — the
detector's four patterns are exactly the first four of the download
path's list (with the same URL cleaning and length acceptance), so
whenever the detector yields an ID the download-path extractor yields
the same ID; the converse fails. -/
theorem md_extractor_refines_ds (url id : String)
    (h : mdExtractYouTubeId url = some id) :
    dsExtractYouTubeId url = .ok id := by
  unfold mdExtractYouTubeId at h
  rcases Option.map_eq_some'.mp h with ⟨cap, hcap, rfl⟩
  have hds : runYtPats dsPatterns (cleanYtUrl url).data = some cap :=
    runYtPats_append mdPatterns dsPatternsExtra _ _ hcap
  simp only [dsExtractYouTubeId, hds]

/-- Witness for C5 (amended) at a short-link URL. -/
theorem md_extractor_refines_ds_witness :
    dsExtractYouTubeId "https://youtu.be/dQw4w9WgXcQ" = .ok "dQw4w9WgXcQ" :=
  md_extractor_refines_ds "https://youtu.be/dQw4w9WgXcQ" "dQw4w9WgXcQ" rfl

end Downloader
